import Mathlib

/-!
Shallow embedding of the StreamlitDashboard application (`src/main.py`):
a single-page dashboard that loads a CO2-emissions table, keeps a
session-scoped selection state (variable, year), and renders a map view
(scatter-geo / choropleth) and a trend view (line chart / table).

Dataframes are modelled as tables of cells; pandas missing values (NaN)
are the `Cell.null` constructor; pandas numeric dtypes are modelled by a
per-column `Dtype` tag.  Streamlit widgets are modelled as pure functions
of an optional user choice (the `none` case is the widget's default on a
fresh render).  Fallible steps (a widget call that would raise) return
`Option`.
-/

namespace Dashboard

/-- A pandas column dtype: numeric or object (string-like). -/
inductive Dtype
  | numeric
  | object
deriving DecidableEq, Repr

/-- A dataframe cell: a missing value (NaN/None), a string, or a number.
Numbers are modelled as integers (the claims only compare and order them). -/
inductive Cell
  | null
  | str (s : String)
  | num (n : Int)
deriving DecidableEq, Repr

/-- A dataframe: named columns with dtypes, rows as cell lists aligned with
`cols`. -/
structure Table where
  cols : List String
  dtypes : List Dtype
  rows : List (List Cell)
deriving DecidableEq, Repr

/-- Position of the first occurrence of a column name in a column list. -/
def lookupIdx : List String → String → Option Nat
  | [], _ => none
  | x :: xs, c => if x = c then some 0 else (lookupIdx xs c).map (· + 1)

/-- Index of a column name, as pandas column lookup. -/
def Table.colIdx (t : Table) (c : String) : Option Nat :=
  lookupIdx t.cols c

/-- The cell of row `r` in column `c` (missing column or short row reads as
missing value). -/
def Table.cellAt (t : Table) (r : List Cell) (c : String) : Cell :=
  match t.colIdx c with
  | none => Cell.null
  | some i => r.getD i Cell.null

/-- The column `c` as a list of cells, in row order (`df[c]`). -/
def Table.col (t : Table) (c : String) : List Cell :=
  t.rows.map (fun r => t.cellAt r c)

/-- The dtype recorded for column `c`. -/
def Table.dtypeOf (t : Table) (c : String) : Option Dtype :=
  match t.colIdx c with
  | none => none
  | some i => t.dtypes.get? i

/-- Worker for `uniqueFirst`: keeps the elements of the list not yet seen,
in order, recording seen values in the accumulator. -/
def uniqueFirstAux {α : Type} [DecidableEq α] (seen : List α) :
    List α → List α
  | [] => []
  | x :: xs =>
    if x ∈ seen then uniqueFirstAux seen xs
    else x :: uniqueFirstAux (x :: seen) xs

/-- Model of `pandas.Series.unique`: the distinct values in order of first
appearance. -/
def uniqueFirst {α : Type} [DecidableEq α] (l : List α) : List α :=
  uniqueFirstAux [] l

/-- The numeric columns of a table, in column order: the loop of
`get_data` appending each `col` with `pd.api.types.is_numeric_dtype`. -/
def numericCols (t : Table) : List String :=
  (t.cols.zip t.dtypes).filterMap
    (fun p => if p.2 = Dtype.numeric then some p.1 else none)

/-- Model of `get_data` (src/main.py:11-31): returns the loaded table, the unique
country names (`df_total['country'].unique()`), and the numeric columns. -/
def get_data (t : Table) : Table × List Cell × List String :=
  (t, uniqueFirst (t.col "country"), numericCols t)

/-- Effect of `fillna(0)` on a single cell: a missing value becomes the number 0. -/
def fillCell : Cell → Cell
  | Cell.null => Cell.num 0
  | c => c

/-- Model of `df_total.fillna(0, inplace=True)` (src/main.py:121): every missing
cell of every column becomes 0. -/
def Table.fillna0 (t : Table) : Table :=
  { t with rows := t.rows.map (fun r => r.map fillCell) }

/-- Model of the year filter `df[df['year'] == y]`: keep the rows whose year cell equals `y`. -/
def Table.filterYear (t : Table) (y : Int) : Table :=
  { t with rows := t.rows.filter (fun r => t.cellAt r "year" = Cell.num y) }

/-- Model of the isin filter `df[df[c].isin(vals)]`: keep the rows whose `c` cell is among `vals`. -/
def Table.filterIsin (t : Table) (c : String) (vals : List Cell) : Table :=
  { t with rows := t.rows.filter (fun r => t.cellAt r c ∈ vals) }

/-- The numeric values among a list of cells (pandas aggregations skip
non-numbers/NaN). -/
def cellNums (l : List Cell) : List Int :=
  l.filterMap (fun c => match c with | Cell.num n => some n | _ => none)

/-- Smallest element of an integer list, `none` when there is none. -/
def listMin? : List Int → Option Int
  | [] => none
  | x :: xs =>
    match listMin? xs with
    | none => some x
    | some m => some (min x m)

/-- Largest element of an integer list, `none` when there is none. -/
def listMax? : List Int → Option Int
  | [] => none
  | x :: xs =>
    match listMax? xs with
    | none => some x
    | some m => some (max x m)

/-- Model of `df[c].min()` (NaN, i.e. `none`, when no numeric value exists). -/
def Table.colMin (t : Table) (c : String) : Option Int :=
  listMin? (cellNums (t.col c))

/-- Model of `df[c].max()` (NaN, i.e. `none`, when no numeric value exists). -/
def Table.colMax (t : Table) (c : String) : Option Int :=
  listMax? (cellNums (t.col c))

/-- The session-scoped selection state (`st.session_state`): the keys
`variable` and `year`, `none` when the key is absent. -/
structure SessionState where
  var : Option String
  year : Option Int
deriving DecidableEq, Repr

/-- The user's widget interactions during one render; `none` is a fresh
widget left at its default. -/
structure Widgets where
  selectChoice : Option String
  sliderChoice : Option Int
  radioChoice : Option String
  multiChoice : Option (List Cell)
deriving DecidableEq, Repr

/-- Model of `st.selectbox(label, options)`: the user's pick when it is one of the
options, otherwise the first option; `none` when `options` is empty. -/
def selectboxVal (options : List String) (choice : Option String) :
    Option String :=
  match choice with
  | some c => if c ∈ options then some c else options.head?
  | none => options.head?

/-- Model of `st.slider(label, lo, hi)`: the user's pick clamped to `[lo, hi]`,
defaulting to `lo` (Streamlit's default is the minimum value). -/
def sliderVal (lo hi : Int) (choice : Option Int) : Int :=
  match choice with
  | none => lo
  | some u => if u < lo then lo else if hi < u then hi else u

/-- Model of `st.radio(label, options)`: the user's pick when valid, else the first
option. -/
def radioVal (options : List String) (choice : Option String) : String :=
  match choice with
  | some c => if c ∈ options then c else options.headD ""
  | none => options.headD ""

/-- Model of `st.multiselect(label, options, default)`: the user's selection,
defaulting to `default` on a fresh render. -/
def multiselectVal (default : List Cell) (choice : Option (List Cell)) :
    List Cell :=
  choice.getD default

/-- The keyword arguments of `px.scatter_geo` / `px.choropleth` built in
`set_column_1` (src/main.py:56-68). -/
structure GeoKwargs where
  data_frame : Table
  locations : String
  color : String
  size : Option String
  hover_name : String
  range_color : Option Int × Option Int
  scope : String
  projection : String
  title : String
  template : String
  color_continuous_scale : String
deriving DecidableEq, Repr

/-- The map view: the two figures' arguments and the radio choice that
decides which is displayed. -/
structure MapView where
  scatterKwargs : GeoKwargs
  choroplethKwargs : GeoKwargs
  shownMap : String
deriving DecidableEq, Repr

/-- The trend view: the line chart's dataframe and y variable, and the
filtered table shown in the Table tab. -/
structure TrendView where
  lineData : Table
  lineVar : String
  tableData : Table
  selCountries : List Cell
deriving DecidableEq, Repr

/-- The figure kwargs dictionary built at src/main.py:54-68: the dataframe
filtered to year `y`, color and size bound to the selected variable, and
the color range `(min, max)` of that variable over the whole `df` (line
54-55 computes it on the unfiltered `df_total`). -/
def buildKwargs (df : Table) (varSel : String) (y : Int) : GeoKwargs :=
  { data_frame := df.filterYear y
    locations := "iso_code"
    color := varSel
    size := some varSel
    hover_name := "country"
    range_color := (df.colMin varSel, df.colMax varSel)
    scope := "world"
    projection := "equirectangular"
    title := "World CO2 Emissions"
    template := "plotly_dark"
    color_continuous_scale := "Reds" }

/-- The map view built at src/main.py:56-77: `fig1 = px.scatter_geo(**kwargs)`,
`del kwargs['size']`, `fig2 = px.choropleth(**kwargs)`, and the map-style
radio choosing which figure is displayed. -/
def mapViewOf (df : Table) (varSel : String) (y : Int) (w : Widgets) :
    MapView :=
  { scatterKwargs := buildKwargs df varSel y
    choroplethKwargs := { buildKwargs df varSel y with size := none }
    shownMap := radioVal ["Scatter", "Choropleth"] w.radioChoice }

/-- Model of `set_column_1` (src/main.py:34-78): the variable selectbox and the year
slider (both written into the session state), then the two map figures.
Returns `none` when the widgets would raise (no numeric year to serve as
slider bounds, or an empty variable list making `df_total[None]` fail). -/
def set_column_1 (df : Table) (vars : List String)
    (st0 : SessionState) (w : Widgets) : Option (SessionState × MapView) :=
  match df.colMin "year", df.colMax "year" with
  | some first_year, some last_year =>
    match selectboxVal vars w.selectChoice with
    | none => none
    | some varSel =>
      let st1 : SessionState := { st0 with var := some varSel }
      let y := sliderVal first_year last_year w.sliderChoice
      let st2 : SessionState := { st1 with year := some y }
      some (st2, mapViewOf df varSel y w)
  | _, _ => none

/-- The default country multiselection (src/main.py:97). -/
def defaultCountries : List Cell :=
  [Cell.str "United States", Cell.str "China", Cell.str "Russia",
   Cell.str "Germany"]

/-- The trend view built at src/main.py:97-105: line chart of the variable
over all rows of the selected countries, and the table of the selected
year's rows restricted to the selected countries. -/
def trendViewOf (df : Table) (varSel : String) (y : Int) (w : Widgets) :
    TrendView :=
  { lineData := df.filterIsin "country"
      (multiselectVal defaultCountries w.multiChoice)
    lineVar := varSel
    tableData := (df.filterYear y).filterIsin "country"
      (multiselectVal defaultCountries w.multiChoice)
    selCountries := multiselectVal defaultCountries w.multiChoice }

/-- Model of `set_column_2` (src/main.py:81-105): reads `variable` and `year` from
the session state (absent keys would raise) and builds the trend view. -/
def set_column_2 (df : Table) (st : SessionState) (w : Widgets) :
    Option TrendView :=
  match st.var, st.year with
  | some varSel, some y => some (trendViewOf df varSel y w)
  | _, _ => none

/-- The lazy session-state initialization of `main` (src/main.py:123-126):
an absent `year` key becomes the maximum year, an absent `variable` key
becomes `co2`. -/
def initState (df : Table) (st0 : SessionState) : SessionState :=
  let st1 : SessionState :=
    if st0.year.isNone then { st0 with year := df.colMax "year" } else st0
  if st1.var.isNone then { st1 with var := some "co2" } else st1

/-- Model of `main` (src/main.py:108-138): load (memoized), fill missing values
with 0, lazily initialize the session keys, then render both columns in
order. -/
def mainRender (raw : Table) (st0 : SessionState) (w : Widgets) :
    Option (SessionState × MapView × TrendView) :=
  let loaded := get_data raw
  let df := loaded.1.fillna0
  match set_column_1 df loaded.2.2 (initState df st0) w with
  | none => none
  | some (st3, mv) =>
    match set_column_2 df st3 w with
    | none => none
    | some tv => some (st3, mv, tv)

/-- The number of traces of the trend line chart: `px.line` with
`color='country'` draws one series per distinct country value in its
dataframe. -/
def lineSeriesCount (tv : TrendView) : Nat :=
  (uniqueFirst (tv.lineData.col "country")).length

/-- No cell of the table is a missing value. -/
def Table.noNulls (t : Table) : Prop :=
  ∀ r ∈ t.rows, ∀ c ∈ r, c ≠ Cell.null

/-- Number of rows of the table whose country is `name` and year is `y`. -/
def Table.countRows (t : Table) (name : String) (y : Int) : Nat :=
  t.rows.countP (fun r =>
    decide (t.cellAt r "country" = Cell.str name) &&
    decide (t.cellAt r "year" = Cell.num y))

/-- A small concrete emissions table used to instantiate the theorems:
four columns, years 2019-2021, three countries, one missing co2 cell. -/
def Wtbl : Table :=
  { cols := ["country", "year", "iso_code", "co2"]
    dtypes := [Dtype.object, Dtype.numeric, Dtype.object, Dtype.numeric]
    rows := [
      [Cell.str "United States", Cell.num 2019, Cell.str "USA", Cell.num 10],
      [Cell.str "United States", Cell.num 2020, Cell.str "USA", Cell.num 11],
      [Cell.str "China", Cell.num 2019, Cell.str "CHN", Cell.null],
      [Cell.str "China", Cell.num 2020, Cell.str "CHN", Cell.num 13],
      [Cell.str "Albania", Cell.num 2021, Cell.str "ALB", Cell.num 1]] }

/-- A fresh render: every widget at its default. -/
def Wfresh : Widgets := ⟨none, none, none, none⟩

/-- Widget interactions for the trend-view scenario: variable `co2`,
year 2020, countries United States and China. -/
def W8 : Widgets :=
  ⟨some "co2", some 2020, none,
   some [Cell.str "United States", Cell.str "China"]⟩

/-- A table whose country column is not in sorted order and contains a
duplicate. -/
def Ctbl : Table :=
  { cols := ["country"]
    dtypes := [Dtype.object]
    rows := [[Cell.str "China"], [Cell.str "Albania"], [Cell.str "China"]] }

/-- A table with a missing value in a non-numeric (object) column. -/
def C10tbl : Table :=
  { cols := ["country", "year", "iso_code", "co2"]
    dtypes := [Dtype.object, Dtype.numeric, Dtype.object, Dtype.numeric]
    rows := [
      [Cell.str "France", Cell.num 2019, Cell.null, Cell.num 5],
      [Cell.null, Cell.num 2020, Cell.str "FRA", Cell.num 6]] }

/-- The country names among a list of cells. -/
def countryNames (l : List Cell) : List String :=
  l.filterMap (fun c => match c with | Cell.str s => some s | _ => none)

/-- Lexicographic order on character lists (the order `sorted()` uses on
strings). -/
def charListLe : List Char → List Char → Bool
  | [], _ => true
  | _ :: _, [] => false
  | a :: as, b :: bs => if a = b then charListLe as bs else decide (a < b)

/-- Lexicographic order on strings. -/
def strLe (s t : String) : Bool :=
  charListLe s.data t.data

/-! ### Lemmas about the list helpers -/

theorem mem_uniqueFirstAux {α : Type} [DecidableEq α] (l seen : List α)
    (a : α) : a ∈ uniqueFirstAux seen l ↔ a ∈ l ∧ a ∉ seen := by
  induction l generalizing seen with
  | nil => simp [uniqueFirstAux]
  | cons x xs ih =>
    simp only [uniqueFirstAux]
    by_cases hx : x ∈ seen
    · rw [if_pos hx, ih]
      constructor
      · rintro ⟨h1, h2⟩
        exact ⟨List.mem_cons_of_mem _ h1, h2⟩
      · rintro ⟨h1, h2⟩
        rcases List.mem_cons.mp h1 with rfl | h1'
        · exact absurd hx h2
        · exact ⟨h1', h2⟩
    · rw [if_neg hx]
      simp only [List.mem_cons, ih]
      constructor
      · rintro (rfl | ⟨h1, h2⟩)
        · exact ⟨Or.inl rfl, hx⟩
        · exact ⟨Or.inr h1, fun hs => h2 (Or.inr hs)⟩
      · rintro ⟨rfl | h1, h2⟩
        · exact Or.inl rfl
        · by_cases hax : a = x
          · exact Or.inl hax
          · exact Or.inr ⟨h1, fun hs => hs.elim hax h2⟩

theorem mem_uniqueFirst {α : Type} [DecidableEq α] (l : List α) (a : α) :
    a ∈ uniqueFirst l ↔ a ∈ l := by
  unfold uniqueFirst
  rw [mem_uniqueFirstAux]
  simp

theorem sublist_uniqueFirstAux {α : Type} [DecidableEq α] (l seen : List α) :
    (uniqueFirstAux seen l).Sublist l := by
  induction l generalizing seen with
  | nil => simp [uniqueFirstAux]
  | cons x xs ih =>
    simp only [uniqueFirstAux]
    by_cases hx : x ∈ seen
    · rw [if_pos hx]
      exact (ih seen).trans (List.sublist_cons_self x xs)
    · rw [if_neg hx]
      exact (ih (x :: seen)).cons₂ x

theorem sublist_uniqueFirst {α : Type} [DecidableEq α] (l : List α) :
    (uniqueFirst l).Sublist l := sublist_uniqueFirstAux l []

theorem nodup_uniqueFirstAux {α : Type} [DecidableEq α] (l seen : List α) :
    (uniqueFirstAux seen l).Nodup := by
  induction l generalizing seen with
  | nil => simp [uniqueFirstAux]
  | cons x xs ih =>
    simp only [uniqueFirstAux]
    by_cases hx : x ∈ seen
    · rw [if_pos hx]
      exact ih seen
    · rw [if_neg hx]
      refine List.Nodup.cons (fun hmem => ?_) (ih (x :: seen))
      exact ((mem_uniqueFirstAux xs (x :: seen) x).mp hmem).2
        (List.mem_cons_self x seen)

theorem nodup_uniqueFirst {α : Type} [DecidableEq α] (l : List α) :
    (uniqueFirst l).Nodup := nodup_uniqueFirstAux l []

theorem nodup_pair_length {α : Type} [DecidableEq α] (l : List α) (a b : α)
    (hab : a ≠ b) (hnd : l.Nodup) (hmem : ∀ x, x ∈ l ↔ x = a ∨ x = b) :
    l.length = 2 := by
  have hfs : l.toFinset = {a, b} := by
    ext x
    simp [hmem x]
  have hcard : l.toFinset.card = 2 := by
    rw [hfs]
    rw [Finset.card_insert_of_not_mem (by simp [hab]), Finset.card_singleton]
  rw [← List.toFinset_card_of_nodup hnd, hcard]

theorem listMin?_eq_none_iff (l : List Int) : listMin? l = none ↔ l = [] := by
  cases l with
  | nil => simp [listMin?]
  | cons x xs => rw [listMin?]; cases listMin? xs <;> simp

theorem listMax?_eq_none_iff (l : List Int) : listMax? l = none ↔ l = [] := by
  cases l with
  | nil => simp [listMax?]
  | cons x xs => rw [listMax?]; cases listMax? xs <;> simp

theorem listMin?_mem {l : List Int} {m : Int} (h : listMin? l = some m) :
    m ∈ l := by
  induction l generalizing m with
  | nil => simp [listMin?] at h
  | cons x xs ih =>
    rw [listMin?] at h
    cases hx : listMin? xs with
    | none => rw [hx] at h; simp at h; simp [h]
    | some m' =>
      rw [hx] at h
      simp only [Option.some.injEq] at h
      rcases min_choice x m' with hc | hc <;> rw [hc] at h
      · simp [← h]
      · exact List.mem_cons_of_mem x (h ▸ ih hx)

theorem listMin?_le {l : List Int} {m : Int} (h : listMin? l = some m) :
    ∀ a ∈ l, m ≤ a := by
  induction l generalizing m with
  | nil => simp [listMin?] at h
  | cons x xs ih =>
    rw [listMin?] at h
    intro a ha
    cases hx : listMin? xs with
    | none =>
      rw [hx] at h
      simp only [Option.some.injEq] at h
      rw [listMin?_eq_none_iff] at hx
      subst hx
      simp only [List.mem_singleton] at ha
      omega
    | some m' =>
      rw [hx] at h
      simp only [Option.some.injEq] at h
      rcases List.mem_cons.mp ha with rfl | ha'
      · omega
      · have := ih hx a ha'
        omega

theorem listMax?_mem {l : List Int} {m : Int} (h : listMax? l = some m) :
    m ∈ l := by
  induction l generalizing m with
  | nil => simp [listMax?] at h
  | cons x xs ih =>
    rw [listMax?] at h
    cases hx : listMax? xs with
    | none => rw [hx] at h; simp at h; simp [h]
    | some m' =>
      rw [hx] at h
      simp only [Option.some.injEq] at h
      rcases max_choice x m' with hc | hc <;> rw [hc] at h
      · simp [← h]
      · exact List.mem_cons_of_mem x (h ▸ ih hx)

theorem le_listMax? {l : List Int} {m : Int} (h : listMax? l = some m) :
    ∀ a ∈ l, a ≤ m := by
  induction l generalizing m with
  | nil => simp [listMax?] at h
  | cons x xs ih =>
    rw [listMax?] at h
    intro a ha
    cases hx : listMax? xs with
    | none =>
      rw [hx] at h
      simp only [Option.some.injEq] at h
      rw [listMax?_eq_none_iff] at hx
      subst hx
      simp only [List.mem_singleton] at ha
      omega
    | some m' =>
      rw [hx] at h
      simp only [Option.some.injEq] at h
      rcases List.mem_cons.mp ha with rfl | ha'
      · omega
      · have := ih hx a ha'
        omega

theorem listMin?_le_listMax? {l : List Int} {m M : Int}
    (hm : listMin? l = some m) (hM : listMax? l = some M) : m ≤ M :=
  listMin?_le hm M (listMax?_mem hM)

theorem countP_or_disjoint {α : Type} (l : List α) (p q : α → Bool)
    (h : ∀ a ∈ l, ¬(p a = true ∧ q a = true)) :
    l.countP (fun a => p a || q a) = l.countP p + l.countP q := by
  induction l with
  | nil => simp
  | cons x xs ih =>
    have hx := h x (List.mem_cons_self x xs)
    have ih' := ih (fun a ha => h a (List.mem_cons_of_mem x ha))
    by_cases hp : p x = true <;> by_cases hq : q x = true
    · exact absurd ⟨hp, hq⟩ hx
    all_goals simp [List.countP_cons, hp, hq, ih']
    all_goals omega

/-! ### Lemmas about the widget models -/

theorem sliderVal_bounds (lo hi : Int) (c : Option Int) (h : lo ≤ hi) :
    lo ≤ sliderVal lo hi c ∧ sliderVal lo hi c ≤ hi := by
  cases c with
  | none => simp [sliderVal, h]
  | some u =>
    simp only [sliderVal]
    split <;> [omega; (split <;> omega)]

theorem selectboxVal_mem {options : List String} {c : Option String}
    {v : String} (h : selectboxVal options c = some v) : v ∈ options := by
  cases c with
  | none =>
    simp only [selectboxVal] at h
    exact List.mem_of_mem_head? h
  | some u =>
    simp only [selectboxVal] at h
    split at h
    · cases h; assumption
    · exact List.mem_of_mem_head? h

/-! ### Lemmas about tables -/

theorem cellAt_filterYear (t : Table) (y : Int) (r : List Cell) (c : String) :
    (t.filterYear y).cellAt r c = t.cellAt r c := rfl

theorem cellAt_filterIsin (t : Table) (cn : String) (vals : List Cell)
    (r : List Cell) (c : String) :
    (t.filterIsin cn vals).cellAt r c = t.cellAt r c := rfl

theorem cellAt_fillna0 (t : Table) (r : List Cell) (c : String) :
    (t.fillna0).cellAt r c = t.cellAt r c := rfl

theorem rows_filterYear (t : Table) (y : Int) :
    (t.filterYear y).rows =
      t.rows.filter (fun r => t.cellAt r "year" = Cell.num y) := rfl

theorem rows_filterIsin (t : Table) (cn : String) (vals : List Cell) :
    (t.filterIsin cn vals).rows =
      t.rows.filter (fun r => t.cellAt r cn ∈ vals) := rfl

theorem fillCell_ne_null (c : Cell) : fillCell c ≠ Cell.null := by
  cases c <;> simp [fillCell]

theorem fillna0_noNulls (t : Table) : (t.fillna0).noNulls := by
  intro r hr c hc
  simp only [Table.fillna0, List.mem_map] at hr
  obtain ⟨r0, _, rfl⟩ := hr
  simp only [List.mem_map] at hc
  obtain ⟨c0, _, rfl⟩ := hc
  exact fillCell_ne_null c0

theorem noNulls_filterYear {t : Table} (h : t.noNulls) (y : Int) :
    (t.filterYear y).noNulls := by
  intro r hr
  rw [rows_filterYear] at hr
  exact h r (List.mem_of_mem_filter hr)

theorem noNulls_filterIsin {t : Table} (h : t.noNulls) (cn : String)
    (vals : List Cell) : (t.filterIsin cn vals).noNulls := by
  intro r hr
  rw [rows_filterIsin] at hr
  exact h r (List.mem_of_mem_filter hr)

theorem lookupIdx_of_mem {l : List String} {c : String} (h : c ∈ l) :
    ∃ i, lookupIdx l c = some i ∧ l.get? i = some c := by
  induction l with
  | nil => simp at h
  | cons x xs ih =>
    by_cases hx : x = c
    · subst hx
      exact ⟨0, by simp [lookupIdx], rfl⟩
    · have hc : c ∈ xs := by
        rcases List.mem_cons.mp h with rfl | h'
        · exact absurd rfl hx
        · exact h'
      obtain ⟨i, hi, hg⟩ := ih hc
      exact ⟨i + 1, by simp [lookupIdx, hx, hi], by simpa using hg⟩

theorem mem_zip_numeric_mem {cols : List String} {dts : List Dtype}
    {c : String}
    (h : c ∈ (cols.zip dts).filterMap
      (fun p => if p.2 = Dtype.numeric then some p.1 else none)) :
    c ∈ cols := by
  induction cols generalizing dts with
  | nil => simp at h
  | cons x xs ih =>
    cases dts with
    | nil => simp at h
    | cons d ds =>
      by_cases hd : d = Dtype.numeric
      · subst hd
        simp only [List.zip_cons_cons, List.filterMap_cons, if_pos rfl] at h
        rcases List.mem_cons.mp h with rfl | h'
        · exact List.mem_cons_self _ _
        · exact List.mem_cons_of_mem x (ih h')
      · simp only [List.zip_cons_cons, List.filterMap_cons, if_neg hd] at h
        exact List.mem_cons_of_mem x (ih h)

theorem dtypeAt_iff (cols : List String) (dts : List Dtype) (c : String)
    (hnd : cols.Nodup) :
    (c ∈ (cols.zip dts).filterMap
        (fun p => if p.2 = Dtype.numeric then some p.1 else none)) ↔
    (match lookupIdx cols c with
     | none => (none : Option Dtype)
     | some i => dts.get? i) = some Dtype.numeric := by
  induction cols generalizing dts with
  | nil => simp [lookupIdx]
  | cons x xs ih =>
    have hnx : x ∉ xs := (List.nodup_cons.mp hnd).1
    have hnd' : xs.Nodup := (List.nodup_cons.mp hnd).2
    cases dts with
    | nil =>
      simp only [List.zip_nil_right, List.filterMap_nil, List.not_mem_nil,
        false_iff]
      cases hli : lookupIdx (x :: xs) c <;> simp
    | cons d ds =>
      by_cases hx : x = c
      · subst hx
        have hli : lookupIdx (x :: xs) x = some 0 := by
          rw [lookupIdx]
          simp
        rw [hli]
        simp only [List.get?_cons_zero]
        by_cases hd : d = Dtype.numeric
        · subst hd
          simp [List.zip_cons_cons, List.filterMap_cons]
        · constructor
          · intro hmem
            rw [List.zip_cons_cons,
              List.filterMap_cons_none (by simp [hd])] at hmem
            exact absurd (mem_zip_numeric_mem hmem) hnx
          · intro heq
            simp only [Option.some.injEq] at heq
            exact absurd heq hd
      · have hx' : c ≠ x := fun hcx => hx hcx.symm
        have hli : lookupIdx (x :: xs) c =
            (lookupIdx xs c).map (· + 1) := by
          rw [lookupIdx]
          simp [hx]
        have hmemiff :
            (c ∈ (((x, d) :: xs.zip ds).filterMap
              (fun p => if p.2 = Dtype.numeric then some p.1 else none))) ↔
            (c ∈ ((xs.zip ds).filterMap
              (fun p => if p.2 = Dtype.numeric then some p.1 else none))) := by
          by_cases hd : d = Dtype.numeric
          · subst hd
            simp [List.filterMap_cons, hx']
          · simp [List.filterMap_cons, hd]
        rw [List.zip_cons_cons, hmemiff, ih ds hnd', hli]
        cases hli2 : lookupIdx xs c <;> simp

theorem mem_numericCols_iff (t : Table) (c : String) (hnd : t.cols.Nodup) :
    c ∈ numericCols t ↔ t.dtypeOf c = some Dtype.numeric := by
  unfold numericCols Table.dtypeOf Table.colIdx
  exact dtypeAt_iff t.cols t.dtypes c hnd

theorem cellAt_eq_getD {t : Table} {c : String} {i : Nat}
    (hi : lookupIdx t.cols c = some i) (r : List Cell) :
    t.cellAt r c = r.getD i Cell.null := by
  unfold Table.cellAt Table.colIdx
  rw [hi]

theorem fillna0_cellAt_null {t : Table} {r : List Cell} {c : String}
    (hr : r ∈ t.rows) (hlen : r.length = t.cols.length) (hc : c ∈ t.cols)
    (hnull : t.cellAt r c = Cell.null) :
    r.map fillCell ∈ (t.fillna0).rows ∧
    (t.fillna0).cellAt (r.map fillCell) c = Cell.num 0 := by
  obtain ⟨i, hi, hg⟩ := lookupIdx_of_mem hc
  have hilen : i < t.cols.length := by
    by_contra hge
    rw [List.get?_eq_none.mpr (Nat.le_of_not_lt hge)] at hg
    cases hg
  have hir : i < r.length := by omega
  constructor
  · exact List.mem_map_of_mem _ hr
  · have hfi : lookupIdx (t.fillna0).cols c = some i := hi
    rw [cellAt_eq_getD hfi]
    rw [cellAt_eq_getD hi] at hnull
    rw [List.getD_eq_getD_get?] at hnull ⊢
    rw [List.get?_map]
    obtain ⟨v, hv⟩ : ∃ v, r.get? i = some v := by
      cases hq : r.get? i
      · rw [List.get?_eq_none] at hq
        omega
      · exact ⟨_, rfl⟩
    rw [hv] at hnull ⊢
    simp only [Option.getD_some] at hnull
    subst hnull
    rfl

/-! ### Characterization of the render pipeline -/

theorem set_column_1_char {df : Table} {vars : List String}
    {st0 st : SessionState} {w : Widgets} {mv : MapView}
    (h : set_column_1 df vars st0 w = some (st, mv)) :
    ∃ fy ly v,
      df.colMin "year" = some fy ∧ df.colMax "year" = some ly ∧
      selectboxVal vars w.selectChoice = some v ∧
      st = ⟨some v, some (sliderVal fy ly w.sliderChoice)⟩ ∧
      mv = mapViewOf df v (sliderVal fy ly w.sliderChoice) w := by
  unfold set_column_1 at h
  split at h
  · rename_i fy ly hmin hmax
    split at h
    · exact absurd h (by simp)
    · rename_i v hsel
      simp only [Option.some.injEq, Prod.mk.injEq] at h
      exact ⟨fy, ly, v, hmin, hmax, hsel, h.1.symm, h.2.symm⟩
  · exact absurd h (by simp)

theorem mainRender_char {raw : Table} {st0 : SessionState} {w : Widgets}
    {st : SessionState} {mv : MapView} {tv : TrendView}
    (h : mainRender raw st0 w = some (st, mv, tv)) :
    ∃ fy ly v,
      (raw.fillna0).colMin "year" = some fy ∧
      (raw.fillna0).colMax "year" = some ly ∧
      selectboxVal (numericCols raw) w.selectChoice = some v ∧
      st = ⟨some v, some (sliderVal fy ly w.sliderChoice)⟩ ∧
      mv = mapViewOf (raw.fillna0) v (sliderVal fy ly w.sliderChoice) w ∧
      tv = trendViewOf (raw.fillna0) v (sliderVal fy ly w.sliderChoice) w := by
  unfold mainRender at h
  simp only [get_data] at h
  split at h
  · exact absurd h (by simp)
  · rename_i st3 mv' hsc1
    split at h
    · exact absurd h (by simp)
    · rename_i tv' hsc2
      simp only [Option.some.injEq, Prod.mk.injEq] at h
      obtain ⟨fy, ly, v, hmin, hmax, hsel, hst3, hmv'⟩ := set_column_1_char hsc1
      subst hst3
      unfold set_column_2 at hsc2
      simp only [Option.some.injEq] at hsc2
      refine ⟨fy, ly, v, hmin, hmax, hsel, ?_, ?_, ?_⟩
      · exact h.1.symm
      · rw [← h.2.1, hmv']
      · rw [← h.2.2, ← hsc2]

theorem mainRender_eq_some {raw : Table} {st0 : SessionState} {w : Widgets}
    {fy ly : Int} {v : String}
    (hmin : (raw.fillna0).colMin "year" = some fy)
    (hmax : (raw.fillna0).colMax "year" = some ly)
    (hsel : selectboxVal (numericCols raw) w.selectChoice = some v) :
    mainRender raw st0 w =
      some (⟨some v, some (sliderVal fy ly w.sliderChoice)⟩,
        mapViewOf (raw.fillna0) v (sliderVal fy ly w.sliderChoice) w,
        trendViewOf (raw.fillna0) v (sliderVal fy ly w.sliderChoice) w) := by
  unfold mainRender set_column_1 set_column_2
  simp only [get_data]
  rw [hmin, hmax, hsel]

/-! ### The claims -/

/-- C1: for the variable selected in the Map View, the scatter-geo and the
choropleth figures are built with identical color ranges, and that shared
range is the (min, max) of the variable's column over the entire loaded
table (all years) — while the dataframe both charts draw is the one
filtered to the selected year. -/
theorem C1_shared_full_table_color_range (raw : Table) (st0 : SessionState)
    (w : Widgets) (st : SessionState) (mv : MapView) (tv : TrendView)
    (h : mainRender raw st0 w = some (st, mv, tv)) :
    mv.scatterKwargs.range_color = mv.choroplethKwargs.range_color ∧
    mv.scatterKwargs.range_color =
      ((raw.fillna0).colMin mv.scatterKwargs.color,
       (raw.fillna0).colMax mv.scatterKwargs.color) ∧
    ∃ y, st.year = some y ∧
      mv.scatterKwargs.data_frame = (raw.fillna0).filterYear y := by
  obtain ⟨fy, ly, v, hmin, hmax, hsel, hst, hmv, htv⟩ := mainRender_char h
  subst hmv
  subst hst
  exact ⟨rfl, rfl, sliderVal fy ly w.sliderChoice, rfl, rfl⟩

/-- Witness for C1 at the concrete table `Wtbl` on a fresh first render. -/
theorem C1_witness :
    (mapViewOf Wtbl.fillna0 "year" 2019 Wfresh).scatterKwargs.range_color =
      (mapViewOf Wtbl.fillna0 "year" 2019
        Wfresh).choroplethKwargs.range_color :=
  (C1_shared_full_table_color_range Wtbl ⟨none, none⟩ Wfresh
    ⟨some "year", some 2019⟩ (mapViewOf Wtbl.fillna0 "year" 2019 Wfresh)
    (trendViewOf Wtbl.fillna0 "year" 2019 Wfresh) (by decide)).1

/-- C2 (code bug, src/main.py:119-126 vs 51-52): on a first run `main` does
initialize the session state with variable `co2` and the maximum year, but
`set_column_1` immediately overwrites both keys with the widget return
values, whose defaults are the first numeric column (`year` on this data)
and the minimum year; the rendered views therefore use those, not
`co2`/max-year. -/
theorem C2_first_run_defaults_not_in_effect :
    initState Wtbl.fillna0 ⟨none, none⟩ = ⟨some "co2", some 2021⟩ ∧
    mainRender Wtbl ⟨none, none⟩ Wfresh =
      some (⟨some "year", some 2019⟩,
        mapViewOf Wtbl.fillna0 "year" 2019 Wfresh,
        trendViewOf Wtbl.fillna0 "year" 2019 Wfresh) ∧
    ("year" ≠ "co2" ∧ (2019 : Int) ≠ 2021) := by decide

/-- C3 counterexample: the loader returns `df['country'].unique()`, which
keeps first-appearance order; on `Ctbl` the result is
["China", "Albania"], which is not in sorted order. -/
theorem C3_counterexample_not_sorted :
    (get_data Ctbl).2.1 = [Cell.str "China", Cell.str "Albania"] ∧
    ¬ List.Pairwise (fun a b => strLe a b = true)
        (countryNames (get_data Ctbl).2.1) := by decide

/-- C3 amended: the loader returns the unique country list in order of
first appearance in the country column — every country appears exactly
once (the list is duplicate-free and has the same members as the column)
and the column's order is preserved (the list is a sublist) — but the
list is not sorted. -/
theorem C3_amended_unique_first_appearance (t : Table) :
    ((get_data t).2.1).Nodup ∧
    ((get_data t).2.1).Sublist (t.col "country") ∧
    ∀ a : Cell, a ∈ (get_data t).2.1 ↔ a ∈ t.col "country" := by
  refine ⟨nodup_uniqueFirst _, sublist_uniqueFirst _, fun a => ?_⟩
  exact mem_uniqueFirst _ a

/-- Witness for C3's amended statement at the concrete table `Ctbl`. -/
theorem C3_amended_witness :
    ((get_data Ctbl).2.1).Nodup ∧
    Cell.str "Albania" ∈ (get_data Ctbl).2.1 :=
  ⟨(C3_amended_unique_first_appearance Ctbl).1,
   ((C3_amended_unique_first_appearance Ctbl).2.2 (Cell.str "Albania")).mpr
     (by decide)⟩

/-- C4: missing cells are replaced with 0 (`fillna(0)`) before any chart or
table view is constructed: every dataframe handed to a chart/table builder
contains no missing values at all (in particular no missing numeric
values), and a cell that was null in the raw table reads as the number 0
in the filled table the views are built from. -/
theorem C4_zero_fill_before_views (raw : Table) (st0 : SessionState)
    (w : Widgets) (st : SessionState) (mv : MapView) (tv : TrendView)
    (h : mainRender raw st0 w = some (st, mv, tv)) :
    mv.scatterKwargs.data_frame.noNulls ∧
    mv.choroplethKwargs.data_frame.noNulls ∧
    tv.lineData.noNulls ∧ tv.tableData.noNulls ∧
    (∀ r ∈ raw.rows, ∀ c ∈ raw.cols,
      r.length = raw.cols.length → raw.cellAt r c = Cell.null →
      r.map fillCell ∈ (raw.fillna0).rows ∧
      (raw.fillna0).cellAt (r.map fillCell) c = Cell.num 0) := by
  obtain ⟨fy, ly, v, hmin, hmax, hsel, hst, hmv, htv⟩ := mainRender_char h
  subst hmv
  subst htv
  have hdf : (raw.fillna0).noNulls := fillna0_noNulls raw
  refine ⟨?_, ?_, ?_, ?_, ?_⟩
  · exact noNulls_filterYear hdf _
  · exact noNulls_filterYear hdf _
  · exact noNulls_filterIsin hdf _ _
  · exact noNulls_filterIsin (noNulls_filterYear hdf _) _ _
  · intro r hr c hc hlen hnull
    exact fillna0_cellAt_null hr hlen hc hnull

/-- Witness for C4 at the concrete table `Wtbl` (whose raw co2 column has
a null cell) under the `W8` interactions. -/
theorem C4_witness :
    (trendViewOf Wtbl.fillna0 "co2" 2020 W8).tableData.noNulls ∧
    (Wtbl.fillna0).cellAt
      ([Cell.str "China", Cell.num 2019, Cell.str "CHN",
        Cell.null].map fillCell) "co2" = Cell.num 0 := by
  have h := C4_zero_fill_before_views Wtbl ⟨none, none⟩ W8
    ⟨some "co2", some 2020⟩ (mapViewOf Wtbl.fillna0 "co2" 2020 W8)
    (trendViewOf Wtbl.fillna0 "co2" 2020 W8) (by decide)
  exact ⟨h.2.2.2.1,
    (h.2.2.2.2 [Cell.str "China", Cell.num 2019, Cell.str "CHN", Cell.null]
      (by decide) "co2" (by decide) (by decide) (by decide)).2⟩

/-- C5: a column name appears in the variable list returned by the data
loader exactly when the column's recorded dtype is numeric (the loop at
src/main.py:27-30 keeps the columns with `is_numeric_dtype`). -/
theorem C5_variable_list_iff_numeric_dtype (t : Table) (c : String)
    (hnd : t.cols.Nodup) :
    c ∈ (get_data t).2.2 ↔ t.dtypeOf c = some Dtype.numeric :=
  mem_numericCols_iff t c hnd

/-- Witness for C5 at the concrete table `Wtbl`: `co2` is listed, the
object column `iso_code` is not. -/
theorem C5_witness :
    ("co2" ∈ (get_data Wtbl).2.2) ∧ "iso_code" ∉ (get_data Wtbl).2.2 := by
  constructor
  · exact (C5_variable_list_iff_numeric_dtype Wtbl "co2" (by decide)).mpr
      (by decide)
  · intro hmem
    have := (C5_variable_list_iff_numeric_dtype Wtbl "iso_code"
      (by decide)).mp hmem
    simp [Table.dtypeOf, Table.colIdx, lookupIdx, Wtbl] at this

/-- C6: with an empty country multiselection the Trend View renders an
empty line chart (zero series) and an empty table (zero rows), and the
render still succeeds (the same session state and map view are produced;
no step fails). -/
theorem C6_empty_country_selection (raw : Table) (st0 : SessionState)
    (w : Widgets) (st : SessionState) (mv : MapView) (tv : TrendView)
    (h : mainRender raw st0 w = some (st, mv, tv)) :
    mainRender raw st0 { w with multiChoice := some [] } =
      some (st, mv, trendViewOf (raw.fillna0) tv.lineVar
        ((st.year).getD 0) { w with multiChoice := some [] }) ∧
    (trendViewOf (raw.fillna0) tv.lineVar ((st.year).getD 0)
      { w with multiChoice := some [] }).lineData.rows = [] ∧
    (trendViewOf (raw.fillna0) tv.lineVar ((st.year).getD 0)
      { w with multiChoice := some [] }).tableData.rows = [] ∧
    lineSeriesCount (trendViewOf (raw.fillna0) tv.lineVar ((st.year).getD 0)
      { w with multiChoice := some [] }) = 0 := by
  obtain ⟨fy, ly, v, hmin, hmax, hsel, hst, hmv, htv⟩ := mainRender_char h
  have hempty :
      multiselectVal defaultCountries
        ({ w with multiChoice := some [] } : Widgets).multiChoice = [] := rfl
  have hrows : ∀ t : Table, (t.filterIsin "country" []).rows = [] := by
    intro t
    rw [rows_filterIsin]
    simp
  subst hst
  subst hmv
  subst htv
  refine ⟨?_, ?_, ?_, ?_⟩
  · have hsel' : selectboxVal (numericCols raw)
        ({ w with multiChoice := some [] } : Widgets).selectChoice =
          some v := hsel
    exact mainRender_eq_some hmin hmax hsel'
  · rw [show (trendViewOf (raw.fillna0) (trendViewOf (raw.fillna0) v
      (sliderVal fy ly w.sliderChoice) w).lineVar
      ((SessionState.mk (some v) (some (sliderVal fy ly
        w.sliderChoice))).year.getD 0)
      { w with multiChoice := some [] }).lineData =
      (raw.fillna0).filterIsin "country" [] from rfl]
    exact hrows _
  · rw [show (trendViewOf (raw.fillna0) (trendViewOf (raw.fillna0) v
      (sliderVal fy ly w.sliderChoice) w).lineVar
      ((SessionState.mk (some v) (some (sliderVal fy ly
        w.sliderChoice))).year.getD 0)
      { w with multiChoice := some [] }).tableData =
      ((raw.fillna0).filterYear (sliderVal fy ly
        w.sliderChoice)).filterIsin "country" [] from rfl]
    exact hrows _
  · unfold lineSeriesCount
    rw [show (trendViewOf (raw.fillna0) (trendViewOf (raw.fillna0) v
      (sliderVal fy ly w.sliderChoice) w).lineVar
      ((SessionState.mk (some v) (some (sliderVal fy ly
        w.sliderChoice))).year.getD 0)
      { w with multiChoice := some [] }).lineData =
      (raw.fillna0).filterIsin "country" [] from rfl]
    rw [show ((raw.fillna0).filterIsin "country" []).col "country" =
      (((raw.fillna0).filterIsin "country" []).rows).map
        (fun r => ((raw.fillna0).filterIsin "country" []).cellAt
          r "country") from rfl]
    rw [hrows]
    rfl

/-- Witness for C6 at the concrete table `Wtbl` on a fresh first render. -/
theorem C6_witness :
    (trendViewOf Wtbl.fillna0 "year" 2019
      { Wfresh with multiChoice := some [] }).lineData.rows = [] ∧
    (trendViewOf Wtbl.fillna0 "year" 2019
      { Wfresh with multiChoice := some [] }).tableData.rows = [] ∧
    lineSeriesCount (trendViewOf Wtbl.fillna0 "year" 2019
      { Wfresh with multiChoice := some [] }) = 0 := by
  have h := C6_empty_country_selection Wtbl ⟨none, none⟩ Wfresh
    ⟨some "year", some 2019⟩ (mapViewOf Wtbl.fillna0 "year" 2019 Wfresh)
    (trendViewOf Wtbl.fillna0 "year" 2019 Wfresh) (by decide)
  exact ⟨h.2.1, h.2.2.1, h.2.2.2⟩

/-- C7: after every successful render the selected year recorded in the
session state lies within the observed [min(year), max(year)] of the
loaded table. -/
theorem C7_year_within_observed_range (raw : Table) (st0 : SessionState)
    (w : Widgets) (st : SessionState) (mv : MapView) (tv : TrendView)
    (h : mainRender raw st0 w = some (st, mv, tv)) :
    ∃ y fy ly, st.year = some y ∧
      (raw.fillna0).colMin "year" = some fy ∧
      (raw.fillna0).colMax "year" = some ly ∧
      fy ≤ y ∧ y ≤ ly := by
  obtain ⟨fy, ly, v, hmin, hmax, hsel, hst, hmv, htv⟩ := mainRender_char h
  have hfl : fy ≤ ly := listMin?_le_listMax? hmin hmax
  have hb := sliderVal_bounds fy ly w.sliderChoice hfl
  exact ⟨sliderVal fy ly w.sliderChoice, fy, ly, by rw [hst], hmin, hmax,
    hb.1, hb.2⟩

/-- Witness for C7 at the concrete table `Wtbl` on a fresh first render. -/
theorem C7_witness :
    (⟨some "year", some 2019⟩ : SessionState).year = some 2019 ∧
    Wtbl.fillna0.colMin "year" = some 2019 ∧
    Wtbl.fillna0.colMax "year" = some 2021 ∧
    (2019 : Int) ≤ 2019 ∧ (2019 : Int) ≤ 2021 := by
  obtain ⟨y, fy, ly, h1, h2, h3, h4, h5⟩ := C7_year_within_observed_range
    Wtbl ⟨none, none⟩ Wfresh ⟨some "year", some 2019⟩
    (mapViewOf Wtbl.fillna0 "year" 2019 Wfresh)
    (trendViewOf Wtbl.fillna0 "year" 2019 Wfresh) (by decide)
  obtain rfl : y = 2019 := (Option.some.inj h1).symm
  have h2' : Wtbl.fillna0.colMin "year" = some 2019 := by decide
  have h3' : Wtbl.fillna0.colMax "year" = some 2021 := by decide
  obtain rfl : fy = 2019 := by
    rw [h2] at h2'
    exact Option.some.inj h2'
  obtain rfl : ly = 2021 := by
    rw [h3] at h3'
    exact Option.some.inj h3'
  exact ⟨h1, h2, h3, h4, h5⟩

theorem bool_or_and_distrib (a b c : Bool) :
    ((a || b) && c) = ((a && c) || (b && c)) := by
  cases a <;> cases b <;> cases c <;> rfl

theorem decide_mem_pair (x a b : Cell) :
    (decide (x ∈ [a, b])) = (decide (x = a) || decide (x = b)) := by
  by_cases h1 : x = a <;> by_cases h2 : x = b <;> simp [h1, h2]

theorem countP_congr_mem {α : Type} {l : List α} {p q : α → Bool}
    (h : ∀ a ∈ l, p a = q a) : l.countP p = l.countP q := by
  induction l with
  | nil => rfl
  | cons x xs ih =>
    rw [List.countP_cons, List.countP_cons, h x (List.mem_cons_self x xs),
      ih (fun a ha => h a (List.mem_cons_of_mem x ha))]

/-- C8: with variable `co2`, selected year 2020 and selected countries
United States and China, and a table holding exactly one row per
(country, 2020) pair for those two countries, the Trend View's table has
exactly two rows and its line chart exactly two series. -/
theorem C8_two_rows_two_series (raw : Table) (st0 : SessionState)
    (w : Widgets) (st : SessionState) (mv : MapView) (tv : TrendView)
    (h : mainRender raw st0 w = some (st, mv, tv))
    (hvar : st.var = some "co2") (hyear : st.year = some 2020)
    (hms : w.multiChoice =
      some [Cell.str "United States", Cell.str "China"])
    (hus : (raw.fillna0).countRows "United States" 2020 = 1)
    (hcn : (raw.fillna0).countRows "China" 2020 = 1) :
    tv.tableData.rows.length = 2 ∧ lineSeriesCount tv = 2 := by
  obtain ⟨fy, ly, v, hmin, hmax, hsel, hst, hmv, htv⟩ := mainRender_char h
  subst hst
  obtain rfl : v = "co2" := Option.some.inj hvar
  have hy : sliderVal fy ly w.sliderChoice = 2020 := Option.some.inj hyear
  rw [hy] at htv
  subst htv
  have hc : multiselectVal defaultCountries w.multiChoice =
      [Cell.str "United States", Cell.str "China"] := by
    rw [hms]
    rfl
  constructor
  · show ((((raw.fillna0).filterYear 2020).filterIsin "country"
      (multiselectVal defaultCountries w.multiChoice)).rows).length = 2
    rw [hc, rows_filterIsin, rows_filterYear]
    simp only [cellAt_filterYear]
    rw [List.filter_filter, ← List.countP_eq_length_filter]
    have hcongr : ∀ r ∈ (raw.fillna0).rows,
        (decide ((raw.fillna0).cellAt r "country" ∈
            [Cell.str "United States", Cell.str "China"]) &&
          decide ((raw.fillna0).cellAt r "year" = Cell.num 2020)) =
        ((decide ((raw.fillna0).cellAt r "country" =
            Cell.str "United States") &&
          decide ((raw.fillna0).cellAt r "year" = Cell.num 2020)) ||
         (decide ((raw.fillna0).cellAt r "country" = Cell.str "China") &&
          decide ((raw.fillna0).cellAt r "year" = Cell.num 2020))) := by
      intro r _
      rw [decide_mem_pair]
      exact bool_or_and_distrib _ _ _
    have hdisj : ∀ r ∈ (raw.fillna0).rows,
        ¬((decide ((raw.fillna0).cellAt r "country" =
             Cell.str "United States") &&
           decide ((raw.fillna0).cellAt r "year" = Cell.num 2020)) = true ∧
          (decide ((raw.fillna0).cellAt r "country" = Cell.str "China") &&
           decide ((raw.fillna0).cellAt r "year" = Cell.num 2020)) =
            true) := by
      rintro r _ ⟨hp, hq⟩
      rw [Bool.and_eq_true, decide_eq_true_eq, decide_eq_true_eq] at hp hq
      rw [hp.1] at hq
      exact absurd hq.1 (by decide)
    rw [countP_congr_mem hcongr, countP_or_disjoint _ _ _ hdisj]
    show (raw.fillna0).countRows "United States" 2020 +
      (raw.fillna0).countRows "China" 2020 = 2
    rw [hus, hcn]
  · show (uniqueFirst (((raw.fillna0).filterIsin "country"
      (multiselectVal defaultCountries w.multiChoice)).col
        "country")).length = 2
    rw [hc]
    have hwit : ∀ name : String,
        (raw.fillna0).countRows name 2020 = 1 →
        Cell.str name ∈ [Cell.str "United States", Cell.str "China"] →
        Cell.str name ∈ ((raw.fillna0).filterIsin "country"
          [Cell.str "United States", Cell.str "China"]).col "country" := by
      intro name hcount hmem2
      have hpos : 0 < (raw.fillna0).rows.countP (fun r =>
          decide ((raw.fillna0).cellAt r "country" = Cell.str name) &&
          decide ((raw.fillna0).cellAt r "year" = Cell.num 2020)) := by
        unfold Table.countRows at hcount
        omega
      obtain ⟨r, hr, hpr⟩ := List.countP_pos_iff.mp hpos
      rw [Bool.and_eq_true, decide_eq_true_eq, decide_eq_true_eq] at hpr
      have hrS : r ∈ ((raw.fillna0).filterIsin "country"
          [Cell.str "United States", Cell.str "China"]).rows := by
        rw [rows_filterIsin]
        refine List.mem_filter.mpr ⟨hr, ?_⟩
        rw [hpr.1]
        exact decide_eq_true hmem2
      have hcell : ((raw.fillna0).filterIsin "country"
          [Cell.str "United States", Cell.str "China"]).cellAt r
            "country" = Cell.str name := by
        rw [cellAt_filterIsin]
        exact hpr.1
      rw [← hcell]
      exact List.mem_map_of_mem _ hrS
    apply nodup_pair_length _ (Cell.str "United States")
      (Cell.str "China") (by decide) (nodup_uniqueFirst _)
    intro x
    rw [mem_uniqueFirst]
    constructor
    · intro hx
      simp only [Table.col, List.mem_map] at hx
      obtain ⟨r, hr, rfl⟩ := hx
      rw [rows_filterIsin] at hr
      have hmemv := List.of_mem_filter hr
      rw [cellAt_filterIsin]
      rw [decide_eq_true_eq] at hmemv
      simpa using hmemv
    · rintro (rfl | rfl)
      · exact hwit "United States" hus (by decide)
      · exact hwit "China" hcn (by decide)

/-- Witness for C8 at the concrete table `Wtbl` under the `W8`
interactions. -/
theorem C8_witness :
    (trendViewOf Wtbl.fillna0 "co2" 2020 W8).tableData.rows.length = 2 ∧
    lineSeriesCount (trendViewOf Wtbl.fillna0 "co2" 2020 W8) = 2 :=
  C8_two_rows_two_series Wtbl ⟨none, none⟩ W8 ⟨some "co2", some 2020⟩
    (mapViewOf Wtbl.fillna0 "co2" 2020 W8)
    (trendViewOf Wtbl.fillna0 "co2" 2020 W8) (by decide) (by decide)
    (by decide) (by decide) (by decide) (by decide)

/-- C9: the choropleth figure receives exactly the kwargs dictionary of
the scatter-geo figure with only the `size` entry deleted
(`del kwargs['size']`, src/main.py:72): every other argument — dataframe,
locations, color, hover name, color range, scope, projection, title,
template, color scale — is identical, and the removed entry was the size
encoding bound to the selected variable. -/
theorem C9_choropleth_same_args_minus_size (raw : Table)
    (st0 : SessionState) (w : Widgets) (st : SessionState) (mv : MapView)
    (tv : TrendView) (h : mainRender raw st0 w = some (st, mv, tv)) :
    mv.choroplethKwargs = { mv.scatterKwargs with size := none } ∧
    mv.scatterKwargs.size = some mv.scatterKwargs.color := by
  obtain ⟨fy, ly, v, hmin, hmax, hsel, hst, hmv, htv⟩ := mainRender_char h
  subst hmv
  exact ⟨rfl, rfl⟩

/-- Witness for C9 at the concrete table `Wtbl` on a fresh first render. -/
theorem C9_witness :
    (mapViewOf Wtbl.fillna0 "year" 2019 Wfresh).choroplethKwargs =
      { (mapViewOf Wtbl.fillna0 "year" 2019 Wfresh).scatterKwargs with
        size := none } :=
  (C9_choropleth_same_args_minus_size Wtbl ⟨none, none⟩ Wfresh
    ⟨some "year", some 2019⟩ (mapViewOf Wtbl.fillna0 "year" 2019 Wfresh)
    (trendViewOf Wtbl.fillna0 "year" 2019 Wfresh) (by decide)).1

/-- C10: the zero-fill applied after loading replaces missing values in
every column — the fill is dtype-independent, so it also hits non-numeric
(object) columns such as `iso_code` or `country`: a row's null cell in any
column of the table reads as the number 0 in the filled table from which
all views are subsequently built. -/
theorem C10_fill_applies_to_all_columns (t : Table) (r : List Cell)
    (c : String) (hr : r ∈ t.rows) (hlen : r.length = t.cols.length)
    (hc : c ∈ t.cols) (hnull : t.cellAt r c = Cell.null) :
    r.map fillCell ∈ (t.fillna0).rows ∧
    (t.fillna0).cellAt (r.map fillCell) c = Cell.num 0 :=
  fillna0_cellAt_null hr hlen hc hnull

/-- Witness for C10 at a table with a null `iso_code` (object) cell. -/
theorem C10_witness :
    ([Cell.str "France", Cell.num 2019, Cell.null,
        Cell.num 5].map fillCell) ∈ (C10tbl.fillna0).rows ∧
    (C10tbl.fillna0).cellAt
      ([Cell.str "France", Cell.num 2019, Cell.null,
        Cell.num 5].map fillCell) "iso_code" = Cell.num 0 :=
  C10_fill_applies_to_all_columns C10tbl
    [Cell.str "France", Cell.num 2019, Cell.null, Cell.num 5] "iso_code"
    (by decide) (by decide) (by decide) (by decide)

end Dashboard
